import Mathlib

set_option autoImplicit false

/-!
Shallow embedding of the pricing and checkout engine of the PawPrint
pet-store point-of-sale application (src/App.tsx, src/types.ts, the
Receipt component, and the CSV bulk-import path of the Inventory
component).  JavaScript numbers are modelled as rationals, optional
fields as `Option`, and the React state updates of `processCheckout`
and `bulkUpdateProducts` as explicit state-passing functions.
-/

namespace PawPrint

/-- Discount kind, from types.ts: `discountType?: 'percent' | 'fixed'`. -/
inductive DiscountType where
  | percent
  | fixed
deriving DecidableEq, Repr

/-- Derived stock status, from types.ts:
`status: 'In Stock' | 'Low Stock' | 'Out of Stock'`. -/
inductive StockStatus where
  | inStock
  | lowStock
  | outOfStock
deriving DecidableEq, Repr

/-- Payment method, from types.ts: `paymentMethod: 'Cash' | 'Card'`. -/
inductive PaymentMethod where
  | cash
  | card
deriving DecidableEq, Repr

/-- Sync status of a Sale in the offline-queue variant of App.tsx:
`syncStatus: 'synced' | 'pending'`. -/
inductive SyncStatus where
  | synced
  | pending
deriving DecidableEq, Repr

/-- Catalog entry, from types.ts `interface Product`.  Optional fields
(`threshold?`, `image?`, `discountType?`, `discountValue?`) become
`Option`; numeric fields become rationals. -/
structure Product where
  id : String
  name : String
  category : String
  status : StockStatus
  stock : ℚ
  threshold : Option ℚ
  supplierName : String
  price : ℚ
  barcode : String
  image : Option String
  discountType : Option DiscountType
  discountValue : Option ℚ
deriving DecidableEq, Repr

/-- Cart line, from types.ts `interface CartItem extends Product`:
a product snapshot plus a quantity. -/
structure CartItem extends Product where
  quantity : ℚ
deriving DecidableEq, Repr

/-- Completed transaction, from types.ts `interface Sale` plus the
`processedBy` and `syncStatus` fields set in App.tsx. -/
structure Sale where
  id : String
  timestamp : ℤ
  items : List CartItem
  subtotal : ℚ
  deliveryFee : ℚ
  totalDiscount : ℚ
  total : ℚ
  paymentMethod : PaymentMethod
  processedBy : Option String
  syncStatus : SyncStatus
deriving DecidableEq, Repr

/-- The store-wide pricing and threshold settings held in App.tsx
component state. -/
structure Settings where
  deliveryEnabled : Bool
  deliveryPrice : ℚ
  globalDiscountEnabled : Bool
  globalDiscountType : DiscountType
  globalDiscountValue : ℚ
  stockThreshold : ℚ
deriving DecidableEq, Repr

/-- The slice of App.tsx component state that the checkout and
inventory operations read and write. -/
structure AppState where
  products : List Product
  sales : List Sale
  cart : List CartItem
  settings : Settings
deriving DecidableEq, Repr

/-- App.tsx `getProductStatus`: stock 0 is Out of Stock; otherwise
stock at or below the threshold (the product threshold when present,
else the global one) is Low Stock; else In Stock. -/
def getProductStatus (p : Product) (globalThreshold : ℚ) : StockStatus :=
  let threshold := p.threshold.getD globalThreshold
  if p.stock = 0 then .outOfStock
  else if p.stock ≤ threshold then .lowStock
  else .inStock

/-- App.tsx `getItemDiscountedTotal`: missing or nonpositive discount
value keeps the base total; a percent discount scales the base total;
a fixed discount is deducted from the unit price, floored at zero.
The JavaScript guard `!item.discountValue || item.discountValue <= 0`
is the `none` case together with `v ≤ 0`. -/
def getItemDiscountedTotal (item : CartItem) : ℚ :=
  let baseTotal := item.price * item.quantity
  match item.discountValue with
  | none => baseTotal
  | some v =>
    if v ≤ 0 then baseTotal
    else if item.discountType = some .percent then baseTotal * (1 - v / 100)
    else max 0 ((item.price - v) * item.quantity)

/-- The Receipt component (src/unnamed/part_006) has its own copy of
`getItemDiscountedTotal`; its fixed branch deducts the discount from
the whole line total, not from the unit price. -/
def receiptItemDiscountedTotal (item : CartItem) : ℚ :=
  let baseTotal := item.price * item.quantity
  match item.discountValue with
  | none => baseTotal
  | some v =>
    if v ≤ 0 then baseTotal
    else if item.discountType = some .percent then baseTotal * (1 - v / 100)
    else max 0 (baseTotal - v)

/-- App.tsx `subtotal`: left fold of the discounted line totals,
mirroring `cart.reduce((sum, item) => sum + getItemDiscountedTotal(item), 0)`. -/
def subtotal (cart : List CartItem) : ℚ :=
  cart.foldl (fun sum item => sum + getItemDiscountedTotal item) 0

/-- App.tsx `globalDiscountAmount`, as a function of the settings and
the already item-discounted subtotal. -/
def globalDiscountAmount (s : Settings) (sub : ℚ) : ℚ :=
  if s.globalDiscountEnabled ∧ 0 < s.globalDiscountValue then
    if s.globalDiscountType = .percent then sub * (s.globalDiscountValue / 100)
    else min sub s.globalDiscountValue
  else 0

/-- App.tsx `totalDiscount`: the per-item discounts plus the global
discount amount. -/
def totalDiscount (s : Settings) (cart : List CartItem) : ℚ :=
  cart.foldl (fun sum item => sum + (item.price * item.quantity - getItemDiscountedTotal item)) 0
    + globalDiscountAmount s (subtotal cart)

/-- App.tsx `currentDeliveryFee`. -/
def currentDeliveryFee (s : Settings) : ℚ :=
  if s.deliveryEnabled then s.deliveryPrice else 0

/-- App.tsx `totalCartValue`: the grand total charged. -/
def totalCartValue (s : Settings) (cart : List CartItem) : ℚ :=
  max 0 (subtotal cart - globalDiscountAmount s (subtotal cart) + currentDeliveryFee s)

/-- App.tsx `processCheckout`.  The nondeterministic inputs of the
source (random sale id, clock, logged-in user, connectivity) are
passed as parameters.  Returns the sale the source returns (if any)
together with the updated component state. -/
def processCheckout (st : AppState) (paymentMethod : PaymentMethod)
    (saleId : String) (now : ℤ) (currentUser : Option String) (isOnline : Bool) :
    Option Sale × AppState :=
  if st.cart.length = 0 then (none, st)
  else
    let newSale : Sale :=
      { id := saleId
        timestamp := now
        items := st.cart
        subtotal := st.cart.foldl (fun sum item => sum + item.price * item.quantity) 0
        deliveryFee := currentDeliveryFee st.settings
        totalDiscount := totalDiscount st.settings st.cart
        total := totalCartValue st.settings st.cart
        paymentMethod := paymentMethod
        processedBy := currentUser
        syncStatus := if isOnline then .synced else .pending }
    let newProducts := st.products.map (fun p =>
      match st.cart.find? (fun item => item.id == p.id) with
      | some cartItem =>
        let newStock := max 0 (p.stock - cartItem.quantity)
        { p with stock := newStock,
                 status := getProductStatus { p with stock := newStock } st.settings.stockThreshold }
      | none => p)
    (some newSale,
      { st with
          products := newProducts
          sales := newSale :: st.sales
          cart := []
          settings := { st.settings with deliveryEnabled := false, globalDiscountEnabled := false } })

/-- One iteration of the `imported.forEach` loop of App.tsx
`bulkUpdateProducts`: find the first catalog entry with the same
barcode; when found, replace it by the imported record merged over it
(every field of the full imported record wins except the identifier,
which stays the existing one) with the status recomputed from the
imported record; when not found, append the imported record with its
status recomputed. -/
def bulkImportOne (globalThreshold : ℚ) (imp : Product) : List Product → List Product
  | [] => [{ imp with status := getProductStatus imp globalThreshold }]
  | p :: ps =>
    if p.barcode == imp.barcode then
      { imp with id := p.id, status := getProductStatus imp globalThreshold } :: ps
    else
      p :: bulkImportOne globalThreshold imp ps

/-- App.tsx `bulkUpdateProducts`: fold the per-record upsert over the
imported list, starting from the current catalog. -/
def bulkUpdateProducts (globalThreshold : ℚ) (prev : List Product) (imported : List Product) :
    List Product :=
  imported.foldl (fun updated imp => bulkImportOne globalThreshold imp updated) prev

/-- The identifier the Inventory CSV importer (`handleImportCSV`)
generates for the record built from data row `i`:
`id: imp-<timestamp>-<i>`. -/
def csvImportedId (timestamp : ℕ) (i : ℕ) : String :=
  "imp-" ++ toString timestamp ++ "-" ++ toString i

end PawPrint

namespace PawPrint

/-! Helper lemmas shared by several claim proofs. -/

/-- A left fold that only adds nonnegative contributions to a
nonnegative accumulator stays nonnegative. -/
lemma foldl_add_nonneg {α : Type} (f : α → ℚ) :
    ∀ (l : List α) (a : ℚ), 0 ≤ a → (∀ x ∈ l, 0 ≤ f x) →
      0 ≤ l.foldl (fun s x => s + f x) a := by
  intro l
  induction l with
  | nil => intro a ha _; simpa using ha
  | cons x xs ih =>
    intro a ha hall
    simp only [List.foldl_cons]
    exact ih (a + f x) (add_nonneg ha (hall x (List.mem_cons_self x xs)))
      (fun y hy => hall y (List.mem_cons_of_mem x hy))

end PawPrint

namespace PawPrint

/-- C2: the discounted line total of a cart line is the base total when
the discount is missing or nonpositive, the percent formula for a
percent discount, and the per-unit fixed formula for a fixed
discount. -/
theorem item_discount_formula (item : CartItem) :
    ((item.discountValue = none ∨ ∃ v, item.discountValue = some v ∧ v ≤ 0) →
      getItemDiscountedTotal item = item.price * item.quantity) ∧
    (∀ v, item.discountValue = some v → 0 < v → item.discountType = some .percent →
      getItemDiscountedTotal item = item.price * item.quantity * (1 - v / 100)) ∧
    (∀ v, item.discountValue = some v → 0 < v → item.discountType = some .fixed →
      getItemDiscountedTotal item = max 0 ((item.price - v) * item.quantity)) := by
  refine ⟨?_, ?_, ?_⟩
  · rintro (hnone | ⟨v, hv, hv0⟩)
    · simp [getItemDiscountedTotal, hnone]
    · simp [getItemDiscountedTotal, hv, hv0]
  · intro v hv hv0 hty
    simp [getItemDiscountedTotal, hv, hty, not_le.mpr hv0]
  · intro v hv hv0 hty
    simp [getItemDiscountedTotal, hv, hty, not_le.mpr hv0]

/-- C2 witness: the three formulas at concrete lines with price 10 and
quantity 2, discounted by nothing, by 25 percent, and by a fixed 3 per
unit. -/
theorem item_discount_formula_witness :
    getItemDiscountedTotal
      { id := "p", name := "n", category := "c", status := .inStock, stock := 5,
        threshold := none, supplierName := "s", price := 10, barcode := "b",
        image := none, discountType := none, discountValue := none, quantity := 2 } = 10 * 2 ∧
    getItemDiscountedTotal
      { id := "p", name := "n", category := "c", status := .inStock, stock := 5,
        threshold := none, supplierName := "s", price := 10, barcode := "b",
        image := none, discountType := some .percent, discountValue := some 25, quantity := 2 }
      = 10 * 2 * (1 - 25 / 100) ∧
    getItemDiscountedTotal
      { id := "p", name := "n", category := "c", status := .inStock, stock := 5,
        threshold := none, supplierName := "s", price := 10, barcode := "b",
        image := none, discountType := some .fixed, discountValue := some 3, quantity := 2 }
      = max 0 ((10 - 3) * 2) :=
  ⟨(item_discount_formula _).1 (Or.inl rfl),
   (item_discount_formula _).2.1 25 rfl (by norm_num) rfl,
   (item_discount_formula _).2.2 3 rfl (by norm_num) rfl⟩

/-- C1: the grand total is the subtotal minus the global discount plus
the delivery fee, floored at zero, with the delivery fee and the global
discount amount given by the case analysis of the spec. -/
theorem grand_total_formula (s : Settings) (cart : List CartItem) :
    totalCartValue s cart =
      max 0 (subtotal cart - globalDiscountAmount s (subtotal cart) + currentDeliveryFee s) ∧
    currentDeliveryFee s = (if s.deliveryEnabled then s.deliveryPrice else 0) ∧
    ((s.globalDiscountEnabled = false ∨ s.globalDiscountValue ≤ 0) →
      globalDiscountAmount s (subtotal cart) = 0) ∧
    (s.globalDiscountEnabled = true → 0 < s.globalDiscountValue →
      s.globalDiscountType = .percent →
      globalDiscountAmount s (subtotal cart) = subtotal cart * (s.globalDiscountValue / 100)) ∧
    (s.globalDiscountEnabled = true → 0 < s.globalDiscountValue →
      s.globalDiscountType = .fixed →
      globalDiscountAmount s (subtotal cart) = min (subtotal cart) s.globalDiscountValue) := by
  refine ⟨rfl, rfl, ?_, ?_, ?_⟩
  · rintro (hoff | hval)
    · simp [globalDiscountAmount, hoff]
    · simp [globalDiscountAmount, not_lt.mpr hval]
  · intro hon hval hty
    simp [globalDiscountAmount, hon, hval, hty]
  · intro hon hval hty
    simp [globalDiscountAmount, hon, hval, hty]

/-- C1 witness: the global discount cases at a concrete one-line cart
and concrete settings (percent 10, fixed 4, and disabled). -/
theorem grand_total_formula_witness :
    globalDiscountAmount
      { deliveryEnabled := true, deliveryPrice := 5, globalDiscountEnabled := true,
        globalDiscountType := .percent, globalDiscountValue := 10, stockThreshold := 10 }
      (subtotal []) = subtotal [] * (10 / 100) ∧
    globalDiscountAmount
      { deliveryEnabled := true, deliveryPrice := 5, globalDiscountEnabled := true,
        globalDiscountType := .fixed, globalDiscountValue := 4, stockThreshold := 10 }
      (subtotal []) = min (subtotal []) 4 ∧
    globalDiscountAmount
      { deliveryEnabled := false, deliveryPrice := 5, globalDiscountEnabled := false,
        globalDiscountType := .percent, globalDiscountValue := 10, stockThreshold := 10 }
      (subtotal []) = 0 :=
  ⟨(grand_total_formula _ []).2.2.2.1 rfl (by norm_num) rfl,
   (grand_total_formula _ []).2.2.2.2 rfl (by norm_num) rfl,
   (grand_total_formula _ []).2.2.1 (Or.inl rfl)⟩

/-- C8: a product is Out of Stock exactly when its stock is zero; for
positive stock it is Low Stock exactly when stock is at most the
effective threshold (its own if present, else the global default) and
In Stock otherwise. -/
theorem stock_status_formula (p : Product) (g : ℚ) :
    (getProductStatus p g = .outOfStock ↔ p.stock = 0) ∧
    (0 < p.stock →
      (getProductStatus p g = .lowStock ↔ p.stock ≤ p.threshold.getD g)) ∧
    (0 < p.stock →
      (getProductStatus p g = .inStock ↔ p.threshold.getD g < p.stock)) := by
  unfold getProductStatus
  by_cases h0 : p.stock = 0
  · simp [h0]
  · by_cases hle : p.stock ≤ p.threshold.getD g
    · simp [h0, hle, not_lt.mpr hle]
    · simp [h0, hle, not_le.mp hle]

/-- C8 witness: the spec examples — stock 0 with threshold 10 is Out of
Stock, stock 5 with threshold 10 is Low Stock, stock 15 with threshold
10 is In Stock. -/
theorem stock_status_formula_witness :
    getProductStatus
      { id := "p", name := "n", category := "c", status := .inStock, stock := 0,
        threshold := some 10, supplierName := "s", price := 1, barcode := "b",
        image := none, discountType := none, discountValue := none } 10 = .outOfStock ∧
    getProductStatus
      { id := "p", name := "n", category := "c", status := .inStock, stock := 5,
        threshold := some 10, supplierName := "s", price := 1, barcode := "b",
        image := none, discountType := none, discountValue := none } 10 = .lowStock ∧
    getProductStatus
      { id := "p", name := "n", category := "c", status := .inStock, stock := 15,
        threshold := some 10, supplierName := "s", price := 1, barcode := "b",
        image := none, discountType := none, discountValue := none } 10 = .inStock :=
  ⟨(stock_status_formula _ 10).1.mpr rfl,
   ((stock_status_formula _ 10).2.1 (by norm_num)).mpr (by norm_num),
   ((stock_status_formula _ 10).2.2 (by norm_num)).mpr (by norm_num)⟩

end PawPrint

namespace PawPrint

/-- A discounted line total is nonnegative when the line has a
nonnegative price and quantity and any percent discount value is at
most 100. -/
lemma getItemDiscountedTotal_nonneg (item : CartItem)
    (hp : 0 ≤ item.price) (hq : 0 ≤ item.quantity)
    (hd : ∀ v, item.discountValue = some v → item.discountType = some .percent → v ≤ 100) :
    0 ≤ getItemDiscountedTotal item := by
  unfold getItemDiscountedTotal
  cases hv : item.discountValue with
  | none => exact mul_nonneg hp hq
  | some v =>
    by_cases h0 : v ≤ 0
    · simp only [h0, if_true]
      exact mul_nonneg hp hq
    · by_cases hty : item.discountType = some .percent
      · have h100 : v ≤ 100 := hd v hv hty
        simp only [h0, if_false, hty, if_true]
        have h1 : (0 : ℚ) ≤ 1 - v / 100 := by linarith
        exact mul_nonneg (mul_nonneg hp hq) h1
      · simp only [h0, if_false, hty]
        exact le_max_left 0 _

/-- C9 (amended): the cart subtotal is nonnegative for every cart
whose lines have nonnegative price and quantity and whose percent
discount values are at most 100. -/
theorem subtotal_nonneg_of_bounded_discounts (cart : List CartItem)
    (h : ∀ item ∈ cart, 0 ≤ item.price ∧ 0 ≤ item.quantity ∧
      ∀ v, item.discountValue = some v → item.discountType = some .percent → v ≤ 100) :
    0 ≤ subtotal cart := by
  unfold subtotal
  refine foldl_add_nonneg getItemDiscountedTotal cart 0 le_rfl ?_
  intro x hx
  exact getItemDiscountedTotal_nonneg x (h x hx).1 (h x hx).2.1 (h x hx).2.2

/-- C9 counterexample: a cart holding one line with price 10, quantity
1 and a 200 percent discount — a value the data model admits — has a
negative subtotal, refuting the claim that every admissible cart has a
nonnegative subtotal. -/
theorem subtotal_neg_counterexample :
    subtotal
      [{ id := "p1", name := "Kibble", category := "Food", status := .inStock,
         stock := 10, threshold := none, supplierName := "Acme", price := 10,
         barcode := "b1", image := none, discountType := some .percent,
         discountValue := some 200, quantity := 1 }] < 0 := by
  norm_num [subtotal, getItemDiscountedTotal]

/-- C9 witness: the amended nonnegativity theorem applied to a concrete
two-line cart with a 25 percent discount and a fixed discount larger
than the price. -/
theorem subtotal_nonneg_of_bounded_discounts_witness :
    0 ≤ subtotal
      [{ id := "p1", name := "Kibble", category := "Food", status := .inStock,
         stock := 10, threshold := none, supplierName := "Acme", price := 10,
         barcode := "b1", image := none, discountType := some .percent,
         discountValue := some 25, quantity := 2 },
       { id := "p2", name := "Leash", category := "Toys", status := .inStock,
         stock := 4, threshold := none, supplierName := "Acme", price := 5,
         barcode := "b2", image := none, discountType := some .fixed,
         discountValue := some 8, quantity := 3 }] :=
  subtotal_nonneg_of_bounded_discounts _ (by
    intro item hitem
    simp only [List.mem_cons, List.mem_singleton] at hitem
    rcases hitem with h | h | h
    · subst h
      refine ⟨by norm_num, by norm_num, ?_⟩
      intro v hv _
      simp only [Option.some.injEq] at hv
      norm_num [← hv]
    · subst h
      refine ⟨by norm_num, by norm_num, ?_⟩
      intro v hv hty
      simp at hty
    · cases h)

/-- C10 (amended): the Receipt copy of the line total agrees with the
charging copy whenever the discount is missing or nonpositive, is a
percent discount, or the quantity is 1; its fixed branch deducts the
discount once per line rather than per unit, so the two can differ for
a fixed discount with quantity other than 1. -/
theorem receipt_line_total_agreement (item : CartItem)
    (h : item.quantity = 1 ∨ item.discountType = some .percent ∨
      item.discountValue = none ∨ ∃ v, item.discountValue = some v ∧ v ≤ 0) :
    receiptItemDiscountedTotal item = getItemDiscountedTotal item := by
  unfold receiptItemDiscountedTotal getItemDiscountedTotal
  cases hv : item.discountValue with
  | none => rfl
  | some v =>
    by_cases h0 : v ≤ 0
    · simp [h0]
    · by_cases hty : item.discountType = some .percent
      · simp [h0, hty]
      · rcases h with hq | hpc | hn | ⟨w, hw, hw0⟩
        · simp only [h0, if_false, hty]
          rw [hq]
          ring_nf
        · exact absurd hpc hty
        · rw [hn] at hv; cases hv
        · rw [hw] at hv
          cases hv
          exact absurd hw0 h0

/-- C10 counterexample: price 10, quantity 2, fixed discount 3 — the
charging function applies the discount per unit and yields 14, while
the Receipt component deducts it once from the line and yields 17, so
the two functions are not extensionally equal. -/
theorem receipt_line_total_counterexample :
    getItemDiscountedTotal
      { id := "p1", name := "Kibble", category := "Food", status := .inStock,
        stock := 10, threshold := none, supplierName := "Acme", price := 10,
        barcode := "b1", image := none, discountType := some .fixed,
        discountValue := some 3, quantity := 2 } ≠
    receiptItemDiscountedTotal
      { id := "p1", name := "Kibble", category := "Food", status := .inStock,
        stock := 10, threshold := none, supplierName := "Acme", price := 10,
        barcode := "b1", image := none, discountType := some .fixed,
        discountValue := some 3, quantity := 2 } := by
  norm_num [getItemDiscountedTotal, receiptItemDiscountedTotal,
    (by decide : (DiscountType.fixed = DiscountType.percent) = False)]

/-- C10 witness: the agreement theorem applied at quantity 1 with a
fixed discount of 3 on price 10. -/
theorem receipt_line_total_agreement_witness :
    receiptItemDiscountedTotal
      { id := "p1", name := "Kibble", category := "Food", status := .inStock,
        stock := 10, threshold := none, supplierName := "Acme", price := 10,
        barcode := "b1", image := none, discountType := some .fixed,
        discountValue := some 3, quantity := 1 } =
    getItemDiscountedTotal
      { id := "p1", name := "Kibble", category := "Food", status := .inStock,
        stock := 10, threshold := none, supplierName := "Acme", price := 10,
        barcode := "b1", image := none, discountType := some .fixed,
        discountValue := some 3, quantity := 1 } :=
  receipt_line_total_agreement _ (Or.inl rfl)

end PawPrint

namespace PawPrint

/-- In a cart whose line identifiers are pairwise distinct, the find
over identifiers returns the unique line carrying the sought
identifier. -/
lemma find?_id_eq_of_nodup :
    ∀ (l : List CartItem) (c : CartItem) (pid : String),
      (l.map (fun x => x.id)).Nodup → c ∈ l → c.id = pid →
      l.find? (fun x => x.id == pid) = some c := by
  intro l
  induction l with
  | nil => intro c pid _ hc _; cases hc
  | cons x xs ih =>
    intro c pid hnd hc hid
    rw [List.map_cons, List.nodup_cons] at hnd
    rcases List.mem_cons.mp hc with rfl | hmem
    · simp [List.find?, hid]
    · have hxid : x.id ≠ pid := by
        intro h
        have hmm : c.id ∈ xs.map (fun y => y.id) :=
          List.mem_map_of_mem (fun y => y.id) hmem
        rw [hid] at hmm
        apply hnd.1
        rw [h]
        exact hmm
      have hbeq : (x.id == pid) = false := beq_eq_false_iff_ne.mpr hxid
      simp only [List.find?, hbeq]
      exact ih c pid hnd.2 hmem hid

/-- Settings used by the concrete checkout witnesses: delivery on at
price 5, fixed global discount 4, global threshold 10. -/
def wSettings : Settings :=
  { deliveryEnabled := true, deliveryPrice := 5, globalDiscountEnabled := true,
    globalDiscountType := .fixed, globalDiscountValue := 4, stockThreshold := 10 }

/-- Catalog product used by the concrete witnesses: price 10, stock 10,
catalog discount 50 percent. -/
def wProduct : Product :=
  { id := "p1", name := "Kibble", category := "Food", status := .inStock,
    stock := 10, threshold := none, supplierName := "Acme", price := 10,
    barcode := "b1", image := none, discountType := some .percent,
    discountValue := some 50 }

/-- Second catalog product, never referenced by the witness cart. -/
def wProductB : Product :=
  { id := "p2", name := "Leash", category := "Toys", status := .inStock,
    stock := 3, threshold := none, supplierName := "Acme", price := 5,
    barcode := "b2", image := none, discountType := none,
    discountValue := none }

/-- Cart line over `wProduct` with quantity 1. -/
def wItem : CartItem := ⟨wProduct, 1⟩

/-- Concrete one-line-cart state for the checkout witnesses. -/
def wState : AppState :=
  { products := [wProduct, wProductB], sales := [], cart := [wItem],
    settings := wSettings }

/-- The same state with an empty cart. -/
def wEmptyState : AppState := { wState with cart := [] }

/-- C4: checkout on an empty cart returns no sale and leaves the
product list, the sales ledger, the cart and the settings unchanged. -/
theorem checkout_empty_cart_noop (st : AppState) (pm : PaymentMethod) (sid : String)
    (now : ℤ) (u : Option String) (onl : Bool) (hcart : st.cart = []) :
    (processCheckout st pm sid now u onl).1 = none ∧
    (processCheckout st pm sid now u onl).2.products = st.products ∧
    (processCheckout st pm sid now u onl).2.sales = st.sales ∧
    (processCheckout st pm sid now u onl).2.cart = st.cart ∧
    (processCheckout st pm sid now u onl).2.settings = st.settings := by
  simp [processCheckout, hcart]

/-- C4 witness: the empty-cart no-op at a concrete state. -/
theorem checkout_empty_cart_noop_witness :
    (processCheckout wEmptyState .cash "s1" 0 none true).1 = none ∧
    (processCheckout wEmptyState .cash "s1" 0 none true).2.products = wEmptyState.products ∧
    (processCheckout wEmptyState .cash "s1" 0 none true).2.sales = wEmptyState.sales ∧
    (processCheckout wEmptyState .cash "s1" 0 none true).2.cart = wEmptyState.cart ∧
    (processCheckout wEmptyState .cash "s1" 0 none true).2.settings = wEmptyState.settings :=
  checkout_empty_cart_noop wEmptyState .cash "s1" 0 none true rfl

/-- C5 (amended): for a non-empty cart the committed Sale stores as its
subtotal the raw sum of price times quantity over the snapshotted
lines — the undiscounted subtotal — while its delivery fee, total
discount and total come from the pricing calculator with the settings
in force at commit time. -/
theorem sale_subtotal_raw (st : AppState) (pm : PaymentMethod) (sid : String)
    (now : ℤ) (u : Option String) (onl : Bool) (hne : st.cart ≠ []) :
    (processCheckout st pm sid now u onl).1.map Sale.subtotal =
      some (st.cart.foldl (fun sum item => sum + item.price * item.quantity) 0) ∧
    (processCheckout st pm sid now u onl).1.map Sale.items = some st.cart ∧
    (processCheckout st pm sid now u onl).1.map Sale.deliveryFee =
      some (currentDeliveryFee st.settings) ∧
    (processCheckout st pm sid now u onl).1.map Sale.totalDiscount =
      some (totalDiscount st.settings st.cart) ∧
    (processCheckout st pm sid now u onl).1.map Sale.total =
      some (totalCartValue st.settings st.cart) := by
  have hlen : ¬ st.cart.length = 0 := by
    simpa [List.length_eq_zero] using hne
  unfold processCheckout
  rw [if_neg hlen]
  exact ⟨rfl, rfl, rfl, rfl, rfl⟩

/-- C5 counterexample: at a concrete state whose only cart line has
price 10, quantity 1 and a 50 percent discount, the committed Sale
stores subtotal 10 — the raw sum — which differs from the discounted
cart subtotal 5 of the pricing calculator, refuting the claim. -/
theorem sale_subtotal_counterexample :
    (processCheckout wState .cash "s1" 0 none true).1.map Sale.subtotal ≠
      some (subtotal wState.cart) := by
  have h10 : (processCheckout wState .cash "s1" 0 none true).1.map Sale.subtotal =
      some ((0 : ℚ) + 10 * 1) := rfl
  rw [h10]
  have h5 : subtotal wState.cart = 5 := by
    norm_num [subtotal, wState, wItem, wProduct, getItemDiscountedTotal]
  rw [h5]
  norm_num

/-- C5 witness: the amended theorem at the concrete one-line-cart
state; the stored subtotal is the raw sum 10. -/
theorem sale_subtotal_raw_witness :
    (processCheckout wState .cash "s1" 0 none true).1.map Sale.subtotal =
      some (wState.cart.foldl (fun sum item => sum + item.price * item.quantity) 0) :=
  (sale_subtotal_raw wState .cash "s1" 0 none true (List.cons_ne_nil _ _)).1

/-- C6: after a non-empty-cart checkout the new sale sits at the front
of the ledger with the previous sales unchanged behind it, the cart is
empty, both transient toggles are off, and the numeric settings keep
their previous values. -/
theorem checkout_ledger_and_settings (st : AppState) (pm : PaymentMethod) (sid : String)
    (now : ℤ) (u : Option String) (onl : Bool) (hne : st.cart ≠ []) :
    (∀ s, (processCheckout st pm sid now u onl).1 = some s →
      (processCheckout st pm sid now u onl).2.sales = s :: st.sales) ∧
    (∃ s, (processCheckout st pm sid now u onl).1 = some s) ∧
    (processCheckout st pm sid now u onl).2.cart = [] ∧
    (processCheckout st pm sid now u onl).2.settings.deliveryEnabled = false ∧
    (processCheckout st pm sid now u onl).2.settings.globalDiscountEnabled = false ∧
    (processCheckout st pm sid now u onl).2.settings.deliveryPrice = st.settings.deliveryPrice ∧
    (processCheckout st pm sid now u onl).2.settings.globalDiscountValue =
      st.settings.globalDiscountValue ∧
    (processCheckout st pm sid now u onl).2.settings.globalDiscountType =
      st.settings.globalDiscountType := by
  have hlen : ¬ st.cart.length = 0 := by
    simpa [List.length_eq_zero] using hne
  unfold processCheckout
  rw [if_neg hlen]
  refine ⟨?_, ⟨_, rfl⟩, rfl, rfl, rfl, rfl, rfl, rfl⟩
  intro s hs
  cases hs
  rfl

/-- C6 witness: the post-checkout ledger and settings facts at the
concrete one-line-cart state. -/
theorem checkout_ledger_and_settings_witness :
    (processCheckout wState .cash "s1" 0 none true).2.cart = [] ∧
    (processCheckout wState .cash "s1" 0 none true).2.settings.deliveryEnabled = false ∧
    (processCheckout wState .cash "s1" 0 none true).2.settings.globalDiscountEnabled = false ∧
    (processCheckout wState .cash "s1" 0 none true).2.settings.deliveryPrice =
      wState.settings.deliveryPrice ∧
    (processCheckout wState .cash "s1" 0 none true).2.settings.globalDiscountValue =
      wState.settings.globalDiscountValue ∧
    (processCheckout wState .cash "s1" 0 none true).2.settings.globalDiscountType =
      wState.settings.globalDiscountType := by
  have h := checkout_ledger_and_settings wState .cash "s1" 0 none true (List.cons_ne_nil _ _)
  exact ⟨h.2.2.1, h.2.2.2.1, h.2.2.2.2.1, h.2.2.2.2.2.1, h.2.2.2.2.2.2.1, h.2.2.2.2.2.2.2⟩

/-- C3: a non-empty-cart checkout maps each catalog position to the
same product with its stock decremented by the quantity of the cart
line carrying its identifier, floored at zero, and its status
recomputed from the new stock; positions whose identifier no cart line
carries are unchanged.  The cart is assumed to hold at most one line
per identifier, the invariant the cart manager maintains. -/
theorem checkout_updates_stock (st : AppState) (pm : PaymentMethod) (sid : String)
    (now : ℤ) (u : Option String) (onl : Bool)
    (hne : st.cart ≠ [])
    (hids : (st.cart.map (fun c => c.id)).Nodup) :
    (processCheckout st pm sid now u onl).2.products.length = st.products.length ∧
    ∀ (i : ℕ) (p : Product), st.products[i]? = some p →
      (∀ c ∈ st.cart, c.id = p.id →
        (processCheckout st pm sid now u onl).2.products[i]? = some
          { p with stock := max 0 (p.stock - c.quantity),
                   status := getProductStatus
                     { p with stock := max 0 (p.stock - c.quantity) }
                     st.settings.stockThreshold }) ∧
      ((∀ c ∈ st.cart, c.id ≠ p.id) →
        (processCheckout st pm sid now u onl).2.products[i]? = some p) := by
  have hlen : ¬ st.cart.length = 0 := by
    simpa [List.length_eq_zero] using hne
  unfold processCheckout
  rw [if_neg hlen]
  refine ⟨by simp, ?_⟩
  intro i p hp
  constructor
  · intro c hc hcid
    have hfind : st.cart.find? (fun x => x.id == p.id) = some c :=
      find?_id_eq_of_nodup st.cart c p.id hids hc hcid
    simp only [List.getElem?_map, hp, Option.map_some']
    rw [hfind]
  · intro hnone
    have hfind : st.cart.find? (fun x => x.id == p.id) = none := by
      rw [List.find?_eq_none]
      intro x hx
      simpa using hnone x hx
    simp only [List.getElem?_map, hp, Option.map_some']
    rw [hfind]

/-- C3 witness: at the concrete state, the referenced product drops
from stock 10 to the clamped difference with status recomputed, and
the unreferenced product is untouched. -/
theorem checkout_updates_stock_witness :
    (processCheckout wState .cash "s1" 0 none true).2.products[0]? = some
      { wProduct with stock := max 0 (wProduct.stock - wItem.quantity),
                      status := getProductStatus
                        { wProduct with stock := max 0 (wProduct.stock - wItem.quantity) }
                        wState.settings.stockThreshold } ∧
    (processCheckout wState .cash "s1" 0 none true).2.products[1]? = some wProductB := by
  have h := checkout_updates_stock wState .cash "s1" 0 none true
    (List.cons_ne_nil _ _) (by simp [wState])
  refine ⟨(h.2 0 wProduct rfl).1 wItem (List.mem_cons_self _ _) rfl, ?_⟩
  refine (h.2 1 wProductB rfl).2 ?_
  intro c hc
  have hc2 : c ∈ [wItem] := hc
  rw [List.mem_singleton] at hc2
  subst hc2
  decide

end PawPrint

namespace PawPrint

/-- Import record used by the bulk-import witness; its identifier is
the one the CSV importer generates for data row 1 at timestamp 7, and
its barcode matches `wProduct`. -/
def wImport : Product :=
  { id := csvImportedId 7 1, name := "Kibble XL", category := "Food",
    status := .inStock, stock := 0, threshold := none, supplierName := "Acme",
    price := 12, barcode := "b1", image := none, discountType := none,
    discountValue := none }

/-- Catalog product sharing the identifier of `wImport` but not its
barcode, used to show that matching ignores identifiers. -/
def wDecoy : Product :=
  { id := csvImportedId 7 1, name := "Decoy", category := "Toys",
    status := .inStock, stock := 5, threshold := none, supplierName := "Acme",
    price := 3, barcode := "zzz", image := none, discountType := none,
    discountValue := none }

/-- C7: one bulk-import record either replaces the first catalog entry
with the same barcode — the imported fields win, the existing
identifier is kept, the status is recomputed — or, when no entry has
that barcode, is appended with its own identifier (the one the CSV
importer freshly generated) and recomputed status; entries before the
match are untouched, and `bulkUpdateProducts` is the fold of this step
over the imported list. -/
theorem bulk_import_upsert_by_barcode (t : ℚ) (imp : Product) :
    (∀ (l₁ : List Product) (old : Product) (l₂ : List Product),
      (∀ q ∈ l₁, q.barcode ≠ imp.barcode) → old.barcode = imp.barcode →
      bulkImportOne t imp (l₁ ++ old :: l₂) =
        l₁ ++ { imp with id := old.id, status := getProductStatus imp t } :: l₂) ∧
    (∀ l : List Product, (∀ q ∈ l, q.barcode ≠ imp.barcode) →
      bulkImportOne t imp l = l ++ [{ imp with status := getProductStatus imp t }]) ∧
    (∀ (prev imported : List Product),
      bulkUpdateProducts t prev imported =
        imported.foldl (fun updated i => bulkImportOne t i updated) prev) := by
  refine ⟨?_, ?_, fun prev imported => rfl⟩
  · intro l₁
    induction l₁ with
    | nil =>
      intro old l₂ _ hbc
      simp [bulkImportOne, hbc]
    | cons q qs ih =>
      intro old l₂ hl hbc
      have hq : (q.barcode == imp.barcode) = false :=
        beq_eq_false_iff_ne.mpr (hl q (List.mem_cons_self _ _))
      simp only [List.cons_append, bulkImportOne, hq, Bool.false_eq_true, if_false,
        List.append_eq]
      rw [ih old l₂ (fun r hr => hl r (List.mem_cons_of_mem _ hr)) hbc]
  · intro l
    induction l with
    | nil =>
      intro _
      rfl
    | cons q qs ih =>
      intro hl
      have hq : (q.barcode == imp.barcode) = false :=
        beq_eq_false_iff_ne.mpr (hl q (List.mem_cons_self _ _))
      simp only [bulkImportOne, hq, Bool.false_eq_true, if_false, List.cons_append,
        List.append_eq]
      rw [ih (fun r hr => hl r (List.mem_cons_of_mem _ hr))]

/-- C7 witness: importing a record whose barcode matches the second
catalog entry replaces that entry, keeping its identifier even though
the first entry shares the identifier of the import record; the same
record imported into a catalog without its barcode is appended with
the identifier the CSV importer generated. -/
theorem bulk_import_upsert_by_barcode_witness :
    bulkImportOne 10 wImport ([wDecoy] ++ wProduct :: []) =
      [wDecoy] ++ { wImport with id := wProduct.id,
                                 status := getProductStatus wImport 10 } :: [] ∧
    bulkImportOne 10 wImport [wDecoy] =
      [wDecoy] ++ [{ wImport with status := getProductStatus wImport 10 }] := by
  have h := bulk_import_upsert_by_barcode 10 wImport
  refine ⟨h.1 [wDecoy] wProduct [] ?_ rfl, h.2.1 [wDecoy] ?_⟩
  · intro q hq
    rw [List.mem_singleton] at hq
    subst hq
    decide
  · intro q hq
    rw [List.mem_singleton] at hq
    subst hq
    decide

end PawPrint
